import Mathlib

/-!
Verification of the TTS cache subsystem of the Portfolio backend.

The definitions below are a shallow embedding of the Python source:
`app/api/audio.py` (the `/api/audio/tts`, `/api/audio/cache/{hash}`,
`/api/audio/cache/cleanup` and `/api/audio/custom` handlers),
`app/api/bot_audio.py` (`/api/audio/bot/upload`),
`app/services/audio_service.py` (`AudioService.generate_tts`) and
`app/models/audio.py` (the `AudioCache` table).

Machine-word arithmetic is done on `Nat` with explicit reductions
modulo `2 ^ 32`; Python dictionaries are association lists that keep
insertion order, matching CPython semantics for `dict` and `str(dict)`.
-/

/-- A single quote character, used by Python `repr` of strings. -/
def pyQuote : String := String.mk [Char.ofNat 39]

/-- Bytes of an ASCII string (each char below 128, so UTF-8 = code point). -/
def strBytes (s : String) : List Nat := s.data.map Char.toNat

/-- Python `str(d)` for a dict rendered from its insertion-ordered pairs:
keys are `repr`-quoted, values are printed with `str`. -/
def pyStrDict (d : List (String × String)) : String :=
  "\x7b" ++ String.intercalate ", " (d.map (fun p => pyQuote ++ p.1 ++ pyQuote ++ ": " ++ p.2)) ++ "\x7d"

/-- Python `str(x)` for an `Optional[dict]`: `None` prints as `"None"`. -/
def pyStrOptDict : Option (List (String × String)) → String
  | none => "None"
  | some d => pyStrDict d

/-- Python truthiness-based `x or default` on an optional string
(`None` and `""` are falsy). -/
def orDefault : Option String → String → String
  | none, dflt => dflt
  | some v, dflt => if v = "" then dflt else v

/-! ### MD5 (RFC 1321), on byte lists, word arithmetic in `Nat` mod `2 ^ 32` -/

/-- 32-bit left rotation. -/
def rotl32 (x c : Nat) : Nat :=
  ((x <<< c) ||| (x >>> (32 - c))) % 4294967296

/-- 32-bit bitwise complement. -/
def not32 (x : Nat) : Nat := 4294967295 ^^^ (x % 4294967296)

/-- The MD5 sine-derived constant table `K`. -/
def md5K : List Nat :=
  [0xd76aa478, 0xe8c7b756, 0x242070db, 0xc1bdceee,
   0xf57c0faf, 0x4787c62a, 0xa8304613, 0xfd469501,
   0x698098d8, 0x8b44f7af, 0xffff5bb1, 0x895cd7be,
   0x6b901122, 0xfd987193, 0xa679438e, 0x49b40821,
   0xf61e2562, 0xc040b340, 0x265e5a51, 0xe9b6c7aa,
   0xd62f105d, 0x02441453, 0xd8a1e681, 0xe7d3fbc8,
   0x21e1cde6, 0xc33707d6, 0xf4d50d87, 0x455a14ed,
   0xa9e3e905, 0xfcefa3f8, 0x676f02d9, 0x8d2a4c8a,
   0xfffa3942, 0x8771f681, 0x6d9d6122, 0xfde5380c,
   0xa4beea44, 0x4bdecfa9, 0xf6bb4b60, 0xbebfbc70,
   0x289b7ec6, 0xeaa127fa, 0xd4ef3085, 0x04881d05,
   0xd9d4d039, 0xe6db99e5, 0x1fa27cf8, 0xc4ac5665,
   0xf4292244, 0x432aff97, 0xab9423a7, 0xfc93a039,
   0x655b59c3, 0x8f0ccc92, 0xffeff47d, 0x85845dd1,
   0x6fa87e4f, 0xfe2ce6e0, 0xa3014314, 0x4e0811a1,
   0xf7537e82, 0xbd3af235, 0x2ad7d2bb, 0xeb86d391]

/-- The MD5 per-round shift amounts `s`. -/
def md5S : List Nat :=
  [7, 12, 17, 22, 7, 12, 17, 22, 7, 12, 17, 22, 7, 12, 17, 22,
   5, 9, 14, 20, 5, 9, 14, 20, 5, 9, 14, 20, 5, 9, 14, 20,
   4, 11, 16, 23, 4, 11, 16, 23, 4, 11, 16, 23, 4, 11, 16, 23,
   6, 10, 15, 21, 6, 10, 15, 21, 6, 10, 15, 21, 6, 10, 15, 21]

/-- Nonlinear mixing function and message index for MD5 round `i`. -/
def md5FG (i b c d : Nat) : Nat × Nat :=
  if i < 16 then ((b &&& c) ||| (not32 b &&& d), i)
  else if i < 32 then ((d &&& b) ||| (not32 d &&& c), (5 * i + 1) % 16)
  else if i < 48 then (b ^^^ c ^^^ d, (3 * i + 5) % 16)
  else (c ^^^ (b ||| not32 d), (7 * i) % 16)

/-- Little-endian 32-bit word `g` of a 64-byte block. -/
def md5Word (block : List Nat) (g : Nat) : Nat :=
  block.getD (4 * g) 0 + 256 * block.getD (4 * g + 1) 0 +
    65536 * block.getD (4 * g + 2) 0 + 16777216 * block.getD (4 * g + 3) 0

/-- One MD5 compression round on the running state `(a, b, c, d)`. -/
def md5Round (block : List Nat) (st : Nat × Nat × Nat × Nat) (i : Nat) :
    Nat × Nat × Nat × Nat :=
  match st with
  | (a, b, c, d) =>
    let fg := md5FG i b c d
    let f := (fg.1 + a + md5K.getD i 0 + md5Word block fg.2) % 4294967296
    (d, (b + rotl32 f (md5S.getD i 0)) % 4294967296, b, c)

/-- MD5 compression of one 64-byte block into the chaining state. -/
def md5Block (st : Nat × Nat × Nat × Nat) (block : List Nat) :
    Nat × Nat × Nat × Nat :=
  match st with
  | (a0, b0, c0, d0) =>
    match (List.range 64).foldl (md5Round block) (a0, b0, c0, d0) with
    | (a, b, c, d) =>
      ((a0 + a) % 4294967296, (b0 + b) % 4294967296,
       (c0 + c) % 4294967296, (d0 + d) % 4294967296)

/-- Split a byte list into 64-byte chunks, structurally on a fuel bound. -/
def md5ChunksF : Nat → List Nat → List (List Nat)
  | _, [] => []
  | 0, _ => []
  | fuel + 1, l => l.take 64 :: md5ChunksF fuel (l.drop 64)

/-- Split a byte list into 64-byte chunks (`l.length` steps always suffice). -/
def md5Chunks (l : List Nat) : List (List Nat) := md5ChunksF l.length l

/-- MD5 padding: `0x80`, zeros to 56 mod 64, then the 64-bit little-endian
bit length. -/
def md5Pad (msg : List Nat) : List Nat :=
  let bitLen := 8 * msg.length
  let zeros := (120 - (msg.length + 1) % 64) % 64
  msg ++ [128] ++ List.replicate zeros 0 ++
    (List.range 8).map (fun i => (bitLen >>> (8 * i)) % 256)

/-- Little-endian bytes of a 32-bit word. -/
def word32Bytes (w : Nat) : List Nat :=
  [w % 256, (w >>> 8) % 256, (w >>> 16) % 256, (w >>> 24) % 256]

/-- MD5 digest of a byte list, as 16 bytes. -/
def md5Bytes (msg : List Nat) : List Nat :=
  match (md5Chunks (md5Pad msg)).foldl md5Block
      (0x67452301, 0xefcdab89, 0x98badcfe, 0x10325476) with
  | (a, b, c, d) => word32Bytes a ++ word32Bytes b ++ word32Bytes c ++ word32Bytes d

/-- Lowercase hex digit. -/
def hexDigit (n : Nat) : Char :=
  if n < 10 then Char.ofNat (48 + n) else Char.ofNat (87 + n)

/-- Hex string of a byte list, as Python `hexdigest()` prints it. -/
def bytesToHex (l : List Nat) : String :=
  String.mk (l.foldr (fun b acc => hexDigit (b / 16) :: hexDigit (b % 16) :: acc) [])

/-- `hashlib.md5(...).hexdigest()` of a byte list. -/
def md5hex (msg : List Nat) : String := bytesToHex (md5Bytes msg)

/-! ### Data model (`app/models/audio.py`, `app/schemas/audio.py`) -/

/-- Python `str(x)` for an `Optional[str]` in an f-string. -/
def pyStrOptStr : Option String → String
  | none => "None"
  | some v => v

/-- Python truthiness of an `Optional[str]` (`None` and `""` are falsy). -/
def pyTruthy : Option String → Bool
  | none => false
  | some s => s != ""

/-- A row of the `audio_cache` table. `duration` is only ever carried,
never computed, so any numeric carrier is faithful; timestamps are
microseconds as in `datetime`. -/
structure AudioCacheRow where
  text : String
  text_hash : String
  voice_id : String
  voice_settings : Option (List (String × String))
  audio_url : String
  file_name : String
  file_size : Nat
  duration : Option Rat
  source : String
  created_at : Int
  last_used : Int
deriving DecidableEq, Repr

/-- The `POST /api/audio/tts` request body (`TTSRequest` schema). -/
structure TTSRequest where
  text : String
  voice_id : Option String
  voice_settings : Option (List (String × String))
  use_cache : Bool
deriving DecidableEq, Repr

/-- The `POST /api/audio/tts` response body (`TTSResponse` schema). -/
structure TTSResponse where
  audio_url : String
  text_hash : String
  cached : Bool
  file_size : Nat
  duration : Option Rat
  voice_id : String
deriving DecidableEq, Repr

/-- The audio blob directory: an association of file path to byte content. -/
abbrev Fs := List (String × List Nat)

/-- `os.path.exists`. -/
def fsExists (fs : Fs) (path : String) : Bool := fs.any (fun p => p.1 == path)

/-- Opening a path with mode `wb` and writing `content` (overwrites). -/
def fsWrite (fs : Fs) (path : String) (content : List Nat) : Fs :=
  (path, content) :: fs.filter (fun p => p.1 != path)

/-- `os.remove`. -/
def fsRemove (fs : Fs) (path : String) : Fs := fs.filter (fun p => p.1 != path)

/-- The state a TTS-cache handler touches: the `audio_cache` table and the
audio directory. -/
structure TTSState where
  db : List AudioCacheRow
  fs : Fs
deriving DecidableEq, Repr

/-- Update the first list element satisfying `p` (SQLAlchemy `.first()`
followed by a field assignment and commit). -/
def updateFirst (p : α → Bool) (f : α → α) : List α → List α
  | [] => []
  | x :: xs => if p x then f x :: xs else x :: updateFirst p f xs

/-! ### Key derivation and the TTS handler (`app/api/audio.py`) -/

/-- `hashlib.md5(f"{request.text}-{request.voice_id}-{str(request.voice_settings)}"
.encode()).hexdigest()`. -/
def ttsTextHash (req : TTSRequest) : String :=
  md5hex (strBytes
    (req.text ++ "-" ++ pyStrOptStr req.voice_id ++ "-" ++ pyStrOptDict req.voice_settings))

/-- `POST /api/audio/tts` (`generate_tts` in `app/api/audio.py`).
`svc` is the `audio_service.generate_tts` call, given the text, the
resolved voice id and the request's voice settings; `now` is
`datetime.utcnow()`. Errors are `(status_code, detail)` pairs. -/
def generate_tts (defaultVoiceId audioDir : String)
    (svc : String → String → Option (List (String × String)) → Except String (List Nat))
    (now : Int) (req : TTSRequest) (st : TTSState) :
    Except (Nat × String) TTSResponse × TTSState :=
  let text_hash := ttsTextHash req
  let hit := if req.use_cache then st.db.find? (fun r => r.text_hash == text_hash) else none
  match hit with
  | some row =>
      (.ok ⟨row.audio_url, text_hash, true, row.file_size, row.duration, row.voice_id⟩,
       ⟨updateFirst (fun r => r.text_hash == text_hash) (fun r => { r with last_used := now })
          st.db, st.fs⟩)
  | none =>
      match svc req.text (orDefault req.voice_id defaultVoiceId) req.voice_settings with
      | .error e => (.error (500, "Failed to generate TTS: " ++ e), st)
      | .ok audio_data =>
          let filename := "tts_" ++ text_hash ++ ".mp3"
          let file_path := audioDir ++ "/" ++ filename
          let fs' := fsWrite st.fs file_path audio_data
          let file_size := audio_data.length
          let audio_url := "/storage/audio/" ++ filename
          let db' :=
            if req.use_cache then
              st.db ++ [⟨req.text, text_hash, orDefault req.voice_id defaultVoiceId,
                req.voice_settings, audio_url, filename, file_size, none, "generated",
                now, now⟩]
            else st.db
          (.ok ⟨audio_url, text_hash, false, file_size, none,
              orDefault req.voice_id defaultVoiceId⟩,
           ⟨db', fs'⟩)

/-- `GET /api/audio/cache/{text_hash}` (`get_cached_audio`). -/
def get_cached_audio (now : Int) (text_hash : String) (st : TTSState) :
    Except (Nat × String) AudioCacheRow × TTSState :=
  match st.db.find? (fun r => r.text_hash == text_hash) with
  | none => (.error (404, "Cached audio not found"), st)
  | some row =>
      (.ok { row with last_used := now },
       ⟨updateFirst (fun r => r.text_hash == text_hash) (fun r => { r with last_used := now })
          st.db, st.fs⟩)

/-! ### Eviction (`cleanup_cache` in `app/api/audio.py`) -/

/-- Microseconds per day: `timedelta(days=1)` at `datetime` resolution. -/
def usPerDay : Int := 86400000000

/-- The loop over `old_entries`: delete each entry's backing file if it
exists, counting successful deletions; `os.remove` failures are caught
(`removeFails` says which removals raise) and leave the file in place. -/
def deleteFiles (audioDir : String) (removeFails : String → Bool) :
    List AudioCacheRow → Fs → Nat × Fs
  | [], fs => (0, fs)
  | e :: rest, fs =>
      let path := audioDir ++ "/" ++ e.file_name
      if fsExists fs path then
        if removeFails path then deleteFiles audioDir removeFails rest fs
        else
          let r := deleteFiles audioDir removeFails rest (fsRemove fs path)
          (r.1 + 1, r.2)
      else deleteFiles audioDir removeFails rest fs

/-- `DELETE /api/audio/cache/cleanup` (`cleanup_cache`): admin-only; selects
rows with `last_used < utcnow() - timedelta(days=days_old)`, best-effort
deletes their files, then deletes the rows, returning
`(deleted_entries, deleted_files)`. -/
def cleanup_cache (audioDir : String) (removeFails : String → Bool) (isAdmin : Bool)
    (now days_old : Int) (st : TTSState) :
    Except (Nat × String) (Nat × Nat) × TTSState :=
  if isAdmin = false then (.error (403, "Admin access required"), st)
  else
    let cutoff := now - days_old * usPerDay
    let old_entries := st.db.filter (fun e => decide (e.last_used < cutoff))
    let fileRes := deleteFiles audioDir removeFails old_entries st.fs
    let deleted_count := (st.db.filter (fun e => decide (e.last_used < cutoff))).length
    let db' := st.db.filter (fun e => decide (¬ e.last_used < cutoff))
    (.ok (deleted_count, fileRes.1), ⟨db', fileRes.2⟩)

/-! ### Audio generation client (`AudioService` in `app/services/audio_service.py`) -/

/-- The `default_settings` dict of `AudioService.generate_tts`. -/
def defaultVoiceSettings : List (String × String) :=
  [("stability", "0.75"), ("similarity_boost", "0.75"),
   ("style", "0.0"), ("use_speaker_boost", "True")]

/-- Python `d[k] = v` on an insertion-ordered dict. -/
def dictSet (d : List (String × String)) (k v : String) : List (String × String) :=
  if d.any (fun p => p.1 == k) then
    d.map (fun p => if p.1 == k then (k, v) else p)
  else d ++ [(k, v)]

/-- Python `d.update(l)` on insertion-ordered dicts. -/
def dictUpdate (d l : List (String × String)) : List (String × String) :=
  l.foldl (fun acc p => dictSet acc p.1 p.2) d

/-- `default_settings` after `if voice_settings: default_settings.update(voice_settings)`
(`None` and the empty dict are falsy, so they leave the defaults). -/
def mergedVoiceSettings : Option (List (String × String)) → List (String × String)
  | none => defaultVoiceSettings
  | some [] => defaultVoiceSettings
  | some l => dictUpdate defaultVoiceSettings l

/-- The `AudioService` object: its constructor captures the configured
API key and default voice id. -/
structure AudioService where
  api_key : Option String
  default_voice_id : String

/-- `AudioService.generate_tts`: fail if no API key is configured, resolve
the voice id, merge the settings, then make one call to the ElevenLabs
`generate` function (`gen`); an upstream error is re-raised wrapped. -/
def AudioService.generate_tts (svc : AudioService)
    (gen : String → String → List (String × String) → Except String (List Nat))
    (text : String) (voice_id : Option String)
    (voice_settings : Option (List (String × String))) : Except String (List Nat) :=
  if pyTruthy svc.api_key = false then .error "ElevenLabs API key not configured"
  else
    match gen text (orDefault voice_id svc.default_voice_id)
        (mergedVoiceSettings voice_settings) with
    | .error e => .error ("ElevenLabs TTS generation failed: " ++ e)
    | .ok audio_data => .ok audio_data

/-! ### Uploads (`upload_custom_audio` in `app/api/audio.py`,
`upload_bot_audio` in `app/api/bot_audio.py`) -/

/-- An incoming multipart file: declared content type, client filename,
and the bytes `await file.read()` yields. -/
structure UploadFileReq where
  filename : String
  content_type : String
  content : List Nat
deriving DecidableEq, Repr

/-- A row of the `custom_audio` table, as `upload_custom_audio` creates it. -/
structure CustomAudioRow where
  title : String
  description : Option String
  note_id : Option Int
  audio_url : String
  file_name : String
  file_size : Nat
  uploaded_by : Option Nat
  text_content : Option String
deriving DecidableEq, Repr

/-- State touched by `upload_custom_audio`: the `custom_audio` table and
the audio directory. -/
structure CustomAudioState where
  rows : List CustomAudioRow
  fs : Fs
deriving DecidableEq, Repr

/-- `POST /api/audio/custom` (`upload_custom_audio`): admin-only; rejects a
disallowed content type, then an oversized body, before any write; then
saves the file and inserts the row. `allowedTypes`/`maxFileSize` are
`settings.ALLOWED_AUDIO_TYPES`/`settings.MAX_FILE_SIZE`; `timestamp` is
`int(datetime.utcnow().timestamp())`. -/
def upload_custom_audio (allowedTypes : List String) (maxFileSize : Nat)
    (audioDir : String) (isAdmin : Bool) (userId : Nat) (timestamp : Int)
    (file : UploadFileReq) (title : String) (description : Option String)
    (note_id : Option Int) (text_content : Option String) (st : CustomAudioState) :
    Except (Nat × String) CustomAudioRow × CustomAudioState :=
  if isAdmin = false then (.error (403, "Admin access required"), st)
  else if (allowedTypes.contains file.content_type) = false then
    (.error (400, "Invalid file type. Allowed: " ++ String.intercalate ", " allowedTypes), st)
  else if maxFileSize < file.content.length then
    (.error (400, "File too large"), st)
  else
    let filename := "custom_" ++ toString timestamp ++ "_" ++ file.filename
    let file_path := audioDir ++ "/" ++ filename
    let fs' := fsWrite st.fs file_path file.content
    let row : CustomAudioRow :=
      ⟨title, description, note_id, "/storage/audio/" ++ filename, filename,
       file.content.length, some userId, text_content⟩
    (.ok row, ⟨st.rows ++ [row], fs'⟩)

/-- `ALLOWED_AUDIO_TYPES` of `app/api/bot_audio.py`. -/
def botAllowedAudioTypes : List String :=
  ["audio/mpeg", "audio/mp3", "audio/wav", "audio/ogg",
   "audio/m4a", "audio/webm", "audio/aac"]

/-- `MAX_FILE_SIZE` of `app/api/bot_audio.py` (10 MB). -/
def botMaxFileSize : Nat := 10 * 1024 * 1024

/-- `UPLOAD_DIR` of `app/api/bot_audio.py`. -/
def botUploadDir : String := "uploads/bot_audio"

/-- `os.path.splitext(name)[1]`: the extension of a basename, empty when
there is no dot or only leading dots. -/
def splitextExt (name : String) : String :=
  let base := (name.splitOn "/").getLastD ""
  let chars := base.data
  let rext := chars.reverse.takeWhile (fun c => c != Char.ofNat 46)
  if rext.length = chars.length then ""
  else
    let befor := chars.take (chars.length - rext.length - 1)
    if befor.all (fun c => c == Char.ofNat 46) then ""
    else String.mk (Char.ofNat 46 :: rext.reverse)

/-- A row of the `bot_voices` table, as `upload_bot_audio` creates it. -/
structure BotVoiceRow where
  title : String
  trigger_text : String
  audio_url : String
  audio_filename : String
  priority : Int
  is_active : Bool
  file_size : Nat
  content_type : String
  created_by : String
deriving DecidableEq, Repr

/-- State touched by `upload_bot_audio`: the `bot_voices` table and the
upload directory. -/
structure BotVoiceState where
  rows : List BotVoiceRow
  fs : Fs
deriving DecidableEq, Repr

/-- `POST /api/audio/bot/upload` (`upload_bot_audio`): rejects a disallowed
content type, then an oversized body, before any write; then saves the
file under a uuid-based name and inserts the row with the priority
clamped to 1..10. `uuidHex` is `uuid.uuid4().hex`. -/
def upload_bot_audio (uuidHex : String) (audio : UploadFileReq)
    (title trigger_text : String) (priority : Int) (is_active : Bool)
    (adminUsername : String) (st : BotVoiceState) :
    Except (Nat × String) BotVoiceRow × BotVoiceState :=
  if (botAllowedAudioTypes.contains audio.content_type) = false then
    (.error (400, "Invalid file type. Allowed types: " ++
      String.intercalate ", " botAllowedAudioTypes), st)
  else if botMaxFileSize < audio.content.length then
    (.error (400, "File too large. Maximum size: " ++
      toString (botMaxFileSize / (1024 * 1024)) ++ "MB"), st)
  else
    let ext0 := (splitextExt audio.filename).map Char.toLower
    let ext := if ext0 = "" then ".mp3" else ext0
    let unique_filename := "bot_audio_" ++ uuidHex ++ ext
    let file_path := botUploadDir ++ "/" ++ unique_filename
    let fs' := fsWrite st.fs file_path audio.content
    let row : BotVoiceRow :=
      ⟨title.trim, trigger_text.trim, "/uploads/bot_audio/" ++ unique_filename,
       audio.filename, max 1 (min 10 priority), is_active, audio.content.length,
       audio.content_type, adminUsername⟩
    (.ok row, ⟨st.rows ++ [row], fs'⟩)

/-! ### Invariant machinery and helper lemmas -/

/-- The `audio_cache` uniqueness invariant: `text_hash` is a unique column,
so the hashes of the rows are pairwise distinct. -/
def UniqueHashes (db : List AudioCacheRow) : Prop :=
  (db.map AudioCacheRow.text_hash).Nodup

/-- One request handled against the cache state: a TTS call, a cache
lookup, or an eviction pass, with arbitrary parameters. -/
inductive CacheStep : TTSState → TTSState → Prop where
  | tts (dv ad : String)
      (svc : String → String → Option (List (String × String)) → Except String (List Nat))
      (now : Int) (req : TTSRequest) (st : TTSState) :
      CacheStep st (generate_tts dv ad svc now req st).2
  | lookup (now : Int) (h : String) (st : TTSState) :
      CacheStep st (get_cached_audio now h st).2
  | cleanup (ad : String) (rf : String → Bool) (adm : Bool) (now days : Int)
      (st : TTSState) :
      CacheStep st (cleanup_cache ad rf adm now days st).2

/-- States reachable from an empty cache table through handler calls. -/
inductive CacheReachable : TTSState → Prop where
  | init (fs : Fs) : CacheReachable ⟨[], fs⟩
  | step {s t : TTSState} : CacheReachable s → CacheStep s t → CacheReachable t

/-! ### Concrete sample inputs used by witness theorems -/

/-- A sample TTS request (`use_cache=True`). -/
def sampleReq : TTSRequest := ⟨"hi", some "v", none, true⟩

/-- The sample request with caching turned off; the key derivation ignores
`use_cache`, so its hash equals `sampleReq`'s. -/
def sampleReqNC : TTSRequest := ⟨"hi", some "v", none, false⟩

/-- A cache row whose key is `sampleReq`'s key. -/
def sampleRow : AudioCacheRow :=
  ⟨"hi", ttsTextHash sampleReq, "v", none, "/storage/audio/tts_x.mp3", "tts_x.mp3",
   3, none, "generated", 0, 0⟩

/-- A stale cache row (`last_used = 0`). -/
def sampleOldRow : AudioCacheRow :=
  ⟨"old", "00", "v", none, "/storage/audio/tts_old.mp3", "tts_old.mp3",
   3, none, "generated", 0, 0⟩

/-- A generation client that always succeeds with three bytes. -/
def sampleSvcOk : String → String → Option (List (String × String)) → Except String (List Nat) :=
  fun _ _ _ => .ok [1, 2, 3]

/-- A generation client that always fails. -/
def sampleSvcErr : String → String → Option (List (String × String)) → Except String (List Nat) :=
  fun _ _ _ => .error "boom"

/-- An ElevenLabs `generate` stub that always fails. -/
def sampleGenErr : String → String → List (String × String) → Except String (List Nat) :=
  fun _ _ _ => .error "boom"

/-- An upload whose declared content type is not audio. -/
def sampleUpload : UploadFileReq := ⟨"a.mp3", "text/html", [1, 2]⟩

theorem updateFirst_map_text_hash (p : AudioCacheRow → Bool) (now : Int) :
    ∀ l : List AudioCacheRow,
      (updateFirst p (fun r => { r with last_used := now }) l).map AudioCacheRow.text_hash
        = l.map AudioCacheRow.text_hash
  | [] => rfl
  | x :: xs => by
      by_cases hp : p x
      · simp [updateFirst, hp]
      · simp [updateFirst, hp, updateFirst_map_text_hash p now xs]

theorem updateFirst_mem_of_find? (p : α → Bool) (f : α → α) :
    ∀ (l : List α) (a : α), l.find? p = some a → f a ∈ updateFirst p f l
  | x :: xs, a, h => by
      by_cases hp : p x
      · rw [List.find?_cons_of_pos _ hp] at h
        cases h
        simp [updateFirst, hp]
      · rw [List.find?_cons_of_neg _ hp] at h
        simp only [updateFirst, hp, if_false]
        exact List.mem_cons_of_mem x (updateFirst_mem_of_find? p f xs a h)

/-! ### Supporting lemmas -/

theorem find?_append_none (p : α → Bool) (l₁ l₂ : List α) (h : l₁.find? p = none) :
    (l₁ ++ l₂).find? p = l₂.find? p := by
  induction l₁ with
  | nil => rfl
  | cons x xs ih =>
      by_cases hp : p x
      · rw [List.find?_cons_of_pos _ hp] at h; cases h
      · rw [List.find?_cons_of_neg _ hp] at h
        rw [List.cons_append, List.find?_cons_of_neg _ hp]
        exact ih h

theorem fsExists_fsRemove_le (fs : Fs) (q p : String)
    (h : fsExists (fsRemove fs q) p = true) : fsExists fs p = true := by
  simp only [fsExists, fsRemove, List.any_eq_true] at h ⊢
  obtain ⟨x, hx, hpx⟩ := h
  exact ⟨x, (List.mem_filter.mp hx).1, hpx⟩

theorem deleteFiles_exists_mono (ad : String) (rf : String → Bool) :
    ∀ (entries : List AudioCacheRow) (fs : Fs) (p : String),
      fsExists (deleteFiles ad rf entries fs).2 p = true → fsExists fs p = true
  | [], fs, p, h => h
  | e :: rest, fs, p, h => by
      simp only [deleteFiles] at h
      by_cases hex : fsExists fs (ad ++ "/" ++ e.file_name)
      · rw [if_pos hex] at h
        by_cases hrf : rf (ad ++ "/" ++ e.file_name)
        · rw [if_pos hrf] at h
          exact deleteFiles_exists_mono ad rf rest fs p h
        · rw [if_neg hrf] at h
          exact fsExists_fsRemove_le fs _ p
            (deleteFiles_exists_mono ad rf rest _ p h)
      · rw [if_neg hex] at h
        exact deleteFiles_exists_mono ad rf rest fs p h

theorem deleteFiles_count_le (ad : String) (rf : String → Bool) :
    ∀ (entries : List AudioCacheRow) (fs : Fs),
      (deleteFiles ad rf entries fs).1 ≤
        entries.countP
          (fun x => fsExists fs (ad ++ "/" ++ x.file_name) &&
            ! rf (ad ++ "/" ++ x.file_name))
  | [], fs => Nat.zero_le _
  | e :: rest, fs => by
      by_cases hex : fsExists fs (ad ++ "/" ++ e.file_name)
      · by_cases hrf : rf (ad ++ "/" ++ e.file_name)
        · have h1 := deleteFiles_count_le ad rf rest fs
          simp [deleteFiles, hex, hrf, List.countP_cons]
          omega
        · have h1 := deleteFiles_count_le ad rf rest (fsRemove fs (ad ++ "/" ++ e.file_name))
          have h2 : rest.countP
              (fun x => fsExists (fsRemove fs (ad ++ "/" ++ e.file_name))
                  (ad ++ "/" ++ x.file_name) && ! rf (ad ++ "/" ++ x.file_name)) ≤
              rest.countP
                (fun x => fsExists fs (ad ++ "/" ++ x.file_name) &&
                  ! rf (ad ++ "/" ++ x.file_name)) := by
            refine List.countP_mono_left ?_
            intro x _ hx
            simp only [Bool.and_eq_true] at hx ⊢
            exact ⟨fsExists_fsRemove_le fs _ _ hx.1, hx.2⟩
          simp [deleteFiles, hex, hrf, List.countP_cons]
          omega
      · have h1 := deleteFiles_count_le ad rf rest fs
        simp [deleteFiles, hex, List.countP_cons]
        omega

theorem generate_tts_preserves_unique (dv ad : String)
    (svc : String → String → Option (List (String × String)) → Except String (List Nat))
    (now : Int) (req : TTSRequest) (st : TTSState) (hu : UniqueHashes st.db) :
    UniqueHashes (generate_tts dv ad svc now req st).2.db := by
  unfold generate_tts
  dsimp only
  split
  · unfold UniqueHashes
    rw [updateFirst_map_text_hash]
    exact hu
  · rename_i hnone
    split
    · exact hu
    · rename_i bytes hsvc
      dsimp only
      by_cases hcache : req.use_cache
      · rw [if_pos hcache]
        rw [if_pos hcache] at hnone
        have hnotin : ∀ r ∈ st.db, r.text_hash ≠ ttsTextHash req := by
          intro r hr
          have := List.find?_eq_none.mp hnone r hr
          simpa using this
        unfold UniqueHashes
        rw [List.map_append]
        simp only [List.map_cons, List.map_nil]
        rw [List.nodup_append]
        refine ⟨hu, List.nodup_singleton _, ?_⟩
        intro x hx
        simp only [List.mem_singleton]
        obtain ⟨r, hr, hxr⟩ := List.mem_map.mp hx
        intro hcontra
        exact hnotin r hr (hxr.symm ▸ hcontra ▸ rfl)
      · rw [if_neg hcache]
        exact hu

theorem get_cached_audio_preserves_unique (now : Int) (h : String) (st : TTSState)
    (hu : UniqueHashes st.db) : UniqueHashes (get_cached_audio now h st).2.db := by
  unfold get_cached_audio
  split
  · exact hu
  · unfold UniqueHashes
    rw [updateFirst_map_text_hash]
    exact hu

theorem cleanup_cache_preserves_unique (ad : String) (rf : String → Bool) (adm : Bool)
    (now days : Int) (st : TTSState) (hu : UniqueHashes st.db) :
    UniqueHashes (cleanup_cache ad rf adm now days st).2.db := by
  unfold cleanup_cache
  split
  · exact hu
  · dsimp only
    exact hu.sublist (List.Sublist.map _ (List.filter_sublist _))

/-! ### The claims -/

/-- Claim C2: on a cache hit (`use_cache=true`, key present) the handler
returns the stored metadata with `cached=true` and updates the hit row's
`last_used`; the file store is untouched, the result is the same for every
generation client `svc` (the client is not called) and does not depend on
the file store contents (the stored blob's existence is not checked). -/
theorem C2_cache_hit (dv ad : String)
    (svc : String → String → Option (List (String × String)) → Except String (List Nat))
    (now : Int) (req : TTSRequest) (db : List AudioCacheRow) (fs : Fs)
    (row : AudioCacheRow)
    (huse : req.use_cache = true)
    (hfind : db.find? (fun r => r.text_hash == ttsTextHash req) = some row) :
    generate_tts dv ad svc now req ⟨db, fs⟩ =
      (.ok ⟨row.audio_url, ttsTextHash req, true, row.file_size, row.duration, row.voice_id⟩,
       ⟨updateFirst (fun r => r.text_hash == ttsTextHash req)
          (fun r => { r with last_used := now }) db, fs⟩) ∧
    { row with last_used := now } ∈
      updateFirst (fun r => r.text_hash == ttsTextHash req)
        (fun r => { r with last_used := now }) db := by
  constructor
  · simp [generate_tts, huse, hfind]
  · exact updateFirst_mem_of_find? _ _ db row hfind

/-- Claim C3: on a cache miss (`use_cache=true`, key absent) with a
successful generation, the handler calls the client, writes the returned
bytes to `tts_<hash>.mp3` in the audio directory, appends a new cache row
for the key, and returns `cached=false` with the new URL and byte count. -/
theorem C3_cache_miss (dv ad : String)
    (svc : String → String → Option (List (String × String)) → Except String (List Nat))
    (now : Int) (req : TTSRequest) (db : List AudioCacheRow) (fs : Fs) (bytes : List Nat)
    (huse : req.use_cache = true)
    (hfind : db.find? (fun r => r.text_hash == ttsTextHash req) = none)
    (hsvc : svc req.text (orDefault req.voice_id dv) req.voice_settings = .ok bytes) :
    generate_tts dv ad svc now req ⟨db, fs⟩ =
      (.ok ⟨"/storage/audio/" ++ ("tts_" ++ ttsTextHash req ++ ".mp3"), ttsTextHash req,
         false, bytes.length, none, orDefault req.voice_id dv⟩,
       ⟨db ++ [⟨req.text, ttsTextHash req, orDefault req.voice_id dv, req.voice_settings,
           "/storage/audio/" ++ ("tts_" ++ ttsTextHash req ++ ".mp3"),
           "tts_" ++ ttsTextHash req ++ ".mp3", bytes.length, none, "generated", now, now⟩],
        fsWrite fs (ad ++ "/" ++ ("tts_" ++ ttsTextHash req ++ ".mp3")) bytes⟩) := by
  simp [generate_tts, huse, hfind, hsvc]

/-- Claim C4: two consecutive identical TTS requests with `use_cache=true`
starting from a state without the key return the same `text_hash` and the
same `audio_url`; the first responds `cached=false`, the second
`cached=true`. -/
theorem C4_miss_then_hit (dv ad : String)
    (svc : String → String → Option (List (String × String)) → Except String (List Nat))
    (t1 t2 : Int) (req : TTSRequest) (db : List AudioCacheRow) (fs : Fs) (bytes : List Nat)
    (huse : req.use_cache = true)
    (hfind : db.find? (fun r => r.text_hash == ttsTextHash req) = none)
    (hsvc : svc req.text (orDefault req.voice_id dv) req.voice_settings = .ok bytes) :
    ∃ st1 st2 : TTSState,
      generate_tts dv ad svc t1 req ⟨db, fs⟩ =
        (.ok ⟨"/storage/audio/" ++ ("tts_" ++ ttsTextHash req ++ ".mp3"), ttsTextHash req,
           false, bytes.length, none, orDefault req.voice_id dv⟩, st1) ∧
      generate_tts dv ad svc t2 req st1 =
        (.ok ⟨"/storage/audio/" ++ ("tts_" ++ ttsTextHash req ++ ".mp3"), ttsTextHash req,
           true, bytes.length, none, orDefault req.voice_id dv⟩, st2) := by
  have hfind2 :
      ((db ++ [(⟨req.text, ttsTextHash req, orDefault req.voice_id dv, req.voice_settings,
          "/storage/audio/" ++ ("tts_" ++ ttsTextHash req ++ ".mp3"),
          "tts_" ++ ttsTextHash req ++ ".mp3", bytes.length, none, "generated", t1,
          t1⟩ : AudioCacheRow)]).find? (fun r => r.text_hash == ttsTextHash req)) =
        some (⟨req.text, ttsTextHash req, orDefault req.voice_id dv, req.voice_settings,
          "/storage/audio/" ++ ("tts_" ++ ttsTextHash req ++ ".mp3"),
          "tts_" ++ ttsTextHash req ++ ".mp3", bytes.length, none, "generated", t1,
          t1⟩ : AudioCacheRow) := by
    rw [find?_append_none _ _ _ hfind]
    simp
  refine ⟨⟨db ++ [⟨req.text, ttsTextHash req, orDefault req.voice_id dv, req.voice_settings,
      "/storage/audio/" ++ ("tts_" ++ ttsTextHash req ++ ".mp3"),
      "tts_" ++ ttsTextHash req ++ ".mp3", bytes.length, none, "generated", t1, t1⟩],
      fsWrite fs (ad ++ "/" ++ ("tts_" ++ ttsTextHash req ++ ".mp3")) bytes⟩,
    ⟨updateFirst (fun r => r.text_hash == ttsTextHash req)
        (fun r => { r with last_used := t2 })
        (db ++ [⟨req.text, ttsTextHash req, orDefault req.voice_id dv, req.voice_settings,
          "/storage/audio/" ++ ("tts_" ++ ttsTextHash req ++ ".mp3"),
          "tts_" ++ ttsTextHash req ++ ".mp3", bytes.length, none, "generated", t1, t1⟩]),
      fsWrite fs (ad ++ "/" ++ ("tts_" ++ ttsTextHash req ++ ".mp3")) bytes⟩, ?_, ?_⟩
  · simp [generate_tts, huse, hfind, hsvc]
  · simp [generate_tts, huse, hfind2, hsvc]

/-- Claim C5: eviction deletes exactly the rows with
`last_used < now - days_old` days, returns that count together with the
file-deletion count, and a row survives iff it was present and not older
than the cutoff. -/
theorem C5_eviction_exact (ad : String) (rf : String → Bool) (now days_old : Int)
    (st : TTSState) :
    cleanup_cache ad rf true now days_old st =
      (.ok ((st.db.filter (fun e => decide (e.last_used < now - days_old * usPerDay))).length,
         (deleteFiles ad rf
           (st.db.filter (fun e => decide (e.last_used < now - days_old * usPerDay)))
           st.fs).1),
       ⟨st.db.filter (fun e => decide (¬ e.last_used < now - days_old * usPerDay)),
        (deleteFiles ad rf
          (st.db.filter (fun e => decide (e.last_used < now - days_old * usPerDay)))
          st.fs).2⟩) ∧
    ∀ e : AudioCacheRow,
      e ∈ (cleanup_cache ad rf true now days_old st).2.db ↔
        e ∈ st.db ∧ ¬ e.last_used < now - days_old * usPerDay := by
  constructor
  · simp [cleanup_cache]
  · intro e
    simp [cleanup_cache, List.mem_filter]

/-- Claim C6: eviction is best-effort on blobs: an expired row whose
backing file is missing or whose removal fails is still deleted from the
table and counted in `deleted_entries` (the pass returns normally), while
`deleted_files` stays strictly below the entry count, so this row is not
counted among the deleted files. -/
theorem C6_eviction_best_effort (ad : String) (rf : String → Bool) (now days_old : Int)
    (st : TTSState) (e : AudioCacheRow)
    (hmem : e ∈ st.db) (hold : e.last_used < now - days_old * usPerDay)
    (hfail : fsExists st.fs (ad ++ "/" ++ e.file_name) = false ∨
      rf (ad ++ "/" ++ e.file_name) = true) :
    ∃ (n m : Nat) (st' : TTSState),
      cleanup_cache ad rf true now days_old st = (.ok (n, m), st') ∧
      e ∉ st'.db ∧ 1 ≤ n ∧ m < n := by
  refine ⟨(st.db.filter (fun x => decide (x.last_used < now - days_old * usPerDay))).length,
    (deleteFiles ad rf
      (st.db.filter (fun x => decide (x.last_used < now - days_old * usPerDay))) st.fs).1,
    ⟨st.db.filter (fun x => decide (¬ x.last_used < now - days_old * usPerDay)),
     (deleteFiles ad rf
       (st.db.filter (fun x => decide (x.last_used < now - days_old * usPerDay))) st.fs).2⟩,
    ?_, ?_, ?_, ?_⟩
  · simp [cleanup_cache]
  · simp [List.mem_filter]
    intro _
    omega
  · have : e ∈ st.db.filter (fun x => decide (x.last_used < now - days_old * usPerDay)) :=
      List.mem_filter.mpr ⟨hmem, by simpa using hold⟩
    have := List.length_pos.mpr (List.ne_nil_of_mem this)
    omega
  · set old := st.db.filter (fun x => decide (x.last_used < now - days_old * usPerDay)) with hOld
    have hEmem : e ∈ old := List.mem_filter.mpr ⟨hmem, by simpa using hold⟩
    have hle := deleteFiles_count_le ad rf old st.fs
    have hPredFalse :
        (fsExists st.fs (ad ++ "/" ++ e.file_name) &&
          ! rf (ad ++ "/" ++ e.file_name)) = false := by
      rcases hfail with h | h
      · simp [h]
      · simp [h]
    have hcnt : old.countP
        (fun x => fsExists st.fs (ad ++ "/" ++ x.file_name) &&
          ! rf (ad ++ "/" ++ x.file_name)) < old.length := by
      refine Nat.lt_of_le_of_ne (List.countP_le_length _) ?_
      intro hEq
      have := (List.countP_eq_length.mp hEq) e hEmem
      rw [hPredFalse] at this
      cases this
    omega

/-- Claim C7: an upload whose declared content type is outside the allowed
set or whose body exceeds the size limit is rejected by both upload
handlers with a 4xx error and an unchanged state: no file written, no row
inserted. -/
theorem C7_upload_rejected
    (allowedTypes : List String) (maxFileSize : Nat) (audioDir : String)
    (isAdmin : Bool) (userId : Nat) (timestamp : Int) (file : UploadFileReq)
    (title : String) (description : Option String) (note_id : Option Int)
    (text_content : Option String) (stc : CustomAudioState)
    (uuidHex : String) (audio : UploadFileReq) (btitle btrigger : String)
    (priority : Int) (is_active : Bool) (adminUsername : String) (stb : BotVoiceState)
    (hc : allowedTypes.contains file.content_type = false ∨
      maxFileSize < file.content.length)
    (hb : botAllowedAudioTypes.contains audio.content_type = false ∨
      botMaxFileSize < audio.content.length) :
    (∃ code detail, upload_custom_audio allowedTypes maxFileSize audioDir isAdmin userId
        timestamp file title description note_id text_content stc =
        (.error (code, detail), stc) ∧ 400 ≤ code ∧ code < 500) ∧
    (∃ code detail, upload_bot_audio uuidHex audio btitle btrigger priority is_active
        adminUsername stb = (.error (code, detail), stb) ∧ 400 ≤ code ∧ code < 500) := by
  constructor
  · by_cases hadm : isAdmin = true
    · by_cases ht : allowedTypes.contains file.content_type = false
      · have htm : file.content_type ∉ allowedTypes := by simpa using ht
        exact ⟨400, "Invalid file type. Allowed: " ++ String.intercalate ", " allowedTypes,
          by simp [upload_custom_audio, hadm, htm], by omega, by omega⟩
      · rcases hc with h | h
        · exact absurd h ht
        · have htm : file.content_type ∈ allowedTypes := by simpa using ht
          exact ⟨400, "File too large",
            by simp [upload_custom_audio, hadm, htm, h], by omega, by omega⟩
    · have hadm' : isAdmin = false := by
        cases isAdmin
        · rfl
        · exact absurd rfl hadm
      exact ⟨403, "Admin access required",
        by simp [upload_custom_audio, hadm'], by omega, by omega⟩
  · by_cases ht : botAllowedAudioTypes.contains audio.content_type = false
    · have htm : audio.content_type ∉ botAllowedAudioTypes := by simpa using ht
      exact ⟨400, "Invalid file type. Allowed types: " ++
        String.intercalate ", " botAllowedAudioTypes,
        by simp [upload_bot_audio, htm], by omega, by omega⟩
    · rcases hb with h | h
      · exact absurd h ht
      · have htm : audio.content_type ∈ botAllowedAudioTypes := by simpa using ht
        exact ⟨400, "File too large. Maximum size: " ++
          toString (botMaxFileSize / (1024 * 1024)) ++ "MB",
          by simp [upload_bot_audio, htm, h], by omega, by omega⟩

/-- Claim C8: the generation client fails when no API credential is
configured and when the upstream call errors (wrapping the message); it
consults the upstream exactly once, so its result only depends on the
single call point; and a failing client surfaces from the TTS handler as a
500 response with the state unchanged (no cache row written). -/
theorem C8_provider_failure
    (apiKey : Option String) (dvid : String)
    (gen g1 g2 : String → String → List (String × String) → Except String (List Nat))
    (text : String) (voice_id : Option String) (vs : Option (List (String × String)))
    (e msg : String) (dv ad : String) (now : Int) (req : TTSRequest) (st : TTSState)
    (svc : String → String → Option (List (String × String)) → Except String (List Nat)) :
    (pyTruthy apiKey = false →
      AudioService.generate_tts ⟨apiKey, dvid⟩ gen text voice_id vs =
        .error "ElevenLabs API key not configured") ∧
    (pyTruthy apiKey = true →
      gen text (orDefault voice_id dvid) (mergedVoiceSettings vs) = .error e →
      AudioService.generate_tts ⟨apiKey, dvid⟩ gen text voice_id vs =
        .error ("ElevenLabs TTS generation failed: " ++ e)) ∧
    (g1 text (orDefault voice_id dvid) (mergedVoiceSettings vs) =
        g2 text (orDefault voice_id dvid) (mergedVoiceSettings vs) →
      AudioService.generate_tts ⟨apiKey, dvid⟩ g1 text voice_id vs =
        AudioService.generate_tts ⟨apiKey, dvid⟩ g2 text voice_id vs) ∧
    ((if req.use_cache then
        st.db.find? (fun r => r.text_hash == ttsTextHash req) else none) = none →
      svc req.text (orDefault req.voice_id dv) req.voice_settings = .error msg →
      generate_tts dv ad svc now req st =
        (.error (500, "Failed to generate TTS: " ++ msg), st)) := by
  refine ⟨?_, ?_, ?_, ?_⟩
  · intro hkey
    simp [AudioService.generate_tts, hkey]
  · intro hkey hgen
    simp [AudioService.generate_tts, hkey, hgen]
  · intro hagree
    unfold AudioService.generate_tts
    by_cases hkey : pyTruthy apiKey = false
    · simp [hkey]
    · simp only [Bool.not_eq_false] at hkey
      simp [hkey, hagree]
  · intro hhit hsvc
    simp [generate_tts, hhit, hsvc]

/-- Claim C9: in every state reachable from an empty cache table through
TTS, lookup and eviction calls the rows' `text_hash` values are pairwise
distinct, and a TTS call with `use_cache=true` whose key is already
present leaves the multiset of keys unchanged (no row inserted). -/
theorem C9_unique_key_invariant :
    (∀ st : TTSState, CacheReachable st → UniqueHashes st.db) ∧
    (∀ (dv ad : String)
      (svc : String → String → Option (List (String × String)) → Except String (List Nat))
      (now : Int) (req : TTSRequest) (st : TTSState),
      req.use_cache = true →
      (∃ r ∈ st.db, r.text_hash = ttsTextHash req) →
      (generate_tts dv ad svc now req st).2.db.map AudioCacheRow.text_hash =
        st.db.map AudioCacheRow.text_hash) := by
  constructor
  · intro st hreach
    induction hreach with
    | init fs => exact List.nodup_nil
    | step _ hstep ih =>
        cases hstep with
        | tts dv ad svc now req => exact generate_tts_preserves_unique dv ad svc now req _ ih
        | lookup now h => exact get_cached_audio_preserves_unique now h _ ih
        | cleanup ad rf adm now days => exact cleanup_cache_preserves_unique ad rf adm now days _ ih
  · intro dv ad svc now req st huse hex
    have hsome : (st.db.find? (fun r => r.text_hash == ttsTextHash req)).isSome := by
      rw [List.find?_isSome]
      obtain ⟨r, hr, hh⟩ := hex
      exact ⟨r, hr, by simpa using hh⟩
    obtain ⟨row, hrow⟩ := Option.isSome_iff_exists.mp hsome
    simp only [generate_tts, huse, if_true, hrow]
    exact updateFirst_map_text_hash _ now st.db

/-- Claim C10: with `use_cache=false` the handler neither reads nor writes
the cache table (the table is returned unchanged and the response does not
depend on it, for every table contents), yet still calls the generation
client, writes the audio file on success, and answers `cached=false`; on
client failure it answers 500 with nothing written. -/
theorem C10_no_cache_frame (dv ad : String)
    (svc : String → String → Option (List (String × String)) → Except String (List Nat))
    (now : Int) (req : TTSRequest) (db : List AudioCacheRow) (fs : Fs)
    (hnc : req.use_cache = false) :
    (∀ bytes : List Nat,
      svc req.text (orDefault req.voice_id dv) req.voice_settings = .ok bytes →
      generate_tts dv ad svc now req ⟨db, fs⟩ =
        (.ok ⟨"/storage/audio/" ++ ("tts_" ++ ttsTextHash req ++ ".mp3"), ttsTextHash req,
           false, bytes.length, none, orDefault req.voice_id dv⟩,
         ⟨db, fsWrite fs (ad ++ "/" ++ ("tts_" ++ ttsTextHash req ++ ".mp3")) bytes⟩)) ∧
    (∀ e : String,
      svc req.text (orDefault req.voice_id dv) req.voice_settings = .error e →
      generate_tts dv ad svc now req ⟨db, fs⟩ =
        (.error (500, "Failed to generate TTS: " ++ e), ⟨db, fs⟩)) := by
  constructor
  · intro bytes hsvc
    simp [generate_tts, hnc, hsvc]
  · intro e hsvc
    simp [generate_tts, hnc, hsvc]


/-- Claim C1 fails on the code: these two requests carry the same text, the
same voice id, and voice-settings dicts with the same field-value pairs (a
permutation, so equal as maps), yet their derived cache keys differ: the
key hashes the insertion-order-dependent `str()` of the settings dict. -/
theorem C1_counterexample :
    List.Perm [(("stability" : String), ("0.5" : String)), ("style", "0.1")]
      [("style", "0.1"), ("stability", "0.5")] ∧
    ttsTextHash ⟨"hi", some "v", some [("stability", "0.5"), ("style", "0.1")], true⟩ ≠
      ttsTextHash ⟨"hi", some "v", some [("style", "0.1"), ("stability", "0.5")], true⟩ := by
  constructor
  · decide
  · decide

/-- Claim C1 (amended): key derivation is order-dependent, not
order-independent: two TTS calls agreeing on the text, the voice id and
the voice-settings dict as an ordered field list (same pairs in the same
order) produce the same `text_hash`; nothing canonicalizes the field
order before hashing. -/
theorem C1_key_from_ordered_serialization (req1 req2 : TTSRequest)
    (ht : req1.text = req2.text) (hv : req1.voice_id = req2.voice_id)
    (hs : req1.voice_settings = req2.voice_settings) :
    ttsTextHash req1 = ttsTextHash req2 := by
  unfold ttsTextHash
  rw [ht, hv, hs]

/-- Witness for the amended C1: two distinct requests (they differ in
`use_cache`) with identical key-relevant fields hash alike. -/
theorem C1_key_from_ordered_serialization_witness :
    sampleReq.text = sampleReqNC.text ∧ sampleReq.voice_id = sampleReqNC.voice_id ∧
    sampleReq.voice_settings = sampleReqNC.voice_settings ∧
    ttsTextHash sampleReq = ttsTextHash sampleReqNC :=
  ⟨rfl, rfl, rfl, C1_key_from_ordered_serialization sampleReq sampleReqNC rfl rfl rfl⟩

/-- Witness for C2 at a one-row cache state holding the request's key. -/
theorem C2_cache_hit_witness :
    sampleReq.use_cache = true ∧
    [sampleRow].find? (fun r => r.text_hash == ttsTextHash sampleReq) = some sampleRow ∧
    (generate_tts "default" "storage/audio" sampleSvcOk 7 sampleReq ⟨[sampleRow], []⟩ =
      (.ok ⟨sampleRow.audio_url, ttsTextHash sampleReq, true, sampleRow.file_size,
         sampleRow.duration, sampleRow.voice_id⟩,
       ⟨updateFirst (fun r => r.text_hash == ttsTextHash sampleReq)
          (fun r => { r with last_used := 7 }) [sampleRow], []⟩) ∧
     { sampleRow with last_used := 7 } ∈
       updateFirst (fun r => r.text_hash == ttsTextHash sampleReq)
         (fun r => { r with last_used := 7 }) [sampleRow]) :=
  ⟨rfl, by simp [List.find?, sampleRow],
   C2_cache_hit "default" "storage/audio" sampleSvcOk 7 sampleReq [sampleRow] [] sampleRow
     rfl (by simp [List.find?, sampleRow])⟩

/-- Witness for C3 at an empty cache state. -/
theorem C3_cache_miss_witness :
    sampleReq.use_cache = true ∧
    ([] : List AudioCacheRow).find? (fun r => r.text_hash == ttsTextHash sampleReq) = none ∧
    sampleSvcOk sampleReq.text (orDefault sampleReq.voice_id "default")
      sampleReq.voice_settings = .ok [1, 2, 3] ∧
    generate_tts "default" "storage/audio" sampleSvcOk 7 sampleReq ⟨[], []⟩ =
      (.ok ⟨"/storage/audio/" ++ ("tts_" ++ ttsTextHash sampleReq ++ ".mp3"),
         ttsTextHash sampleReq, false, ([1, 2, 3] : List Nat).length, none,
         orDefault sampleReq.voice_id "default"⟩,
       ⟨[] ++ [⟨sampleReq.text, ttsTextHash sampleReq, orDefault sampleReq.voice_id "default",
           sampleReq.voice_settings,
           "/storage/audio/" ++ ("tts_" ++ ttsTextHash sampleReq ++ ".mp3"),
           "tts_" ++ ttsTextHash sampleReq ++ ".mp3", ([1, 2, 3] : List Nat).length, none,
           "generated", 7, 7⟩],
        fsWrite [] ("storage/audio" ++ "/" ++ ("tts_" ++ ttsTextHash sampleReq ++ ".mp3"))
          [1, 2, 3]⟩) :=
  ⟨rfl, rfl, rfl,
   C3_cache_miss "default" "storage/audio" sampleSvcOk 7 sampleReq [] [] [1, 2, 3]
     rfl rfl rfl⟩

/-- Witness for C4 at an empty cache state. -/
theorem C4_miss_then_hit_witness :
    sampleReq.use_cache = true ∧
    ([] : List AudioCacheRow).find? (fun r => r.text_hash == ttsTextHash sampleReq) = none ∧
    sampleSvcOk sampleReq.text (orDefault sampleReq.voice_id "default")
      sampleReq.voice_settings = .ok [1, 2, 3] ∧
    (∃ st1 st2 : TTSState,
      generate_tts "default" "storage/audio" sampleSvcOk 7 sampleReq ⟨[], []⟩ =
        (.ok ⟨"/storage/audio/" ++ ("tts_" ++ ttsTextHash sampleReq ++ ".mp3"),
           ttsTextHash sampleReq, false, ([1, 2, 3] : List Nat).length, none,
           orDefault sampleReq.voice_id "default"⟩, st1) ∧
      generate_tts "default" "storage/audio" sampleSvcOk 8 sampleReq st1 =
        (.ok ⟨"/storage/audio/" ++ ("tts_" ++ ttsTextHash sampleReq ++ ".mp3"),
           ttsTextHash sampleReq, true, ([1, 2, 3] : List Nat).length, none,
           orDefault sampleReq.voice_id "default"⟩, st2)) :=
  ⟨rfl, rfl, rfl,
   C4_miss_then_hit "default" "storage/audio" sampleSvcOk 7 8 sampleReq [] [] [1, 2, 3]
     rfl rfl rfl⟩

/-- Witness for C6: a stale row whose backing file is absent. -/
theorem C6_eviction_best_effort_witness :
    sampleOldRow ∈ [sampleOldRow] ∧
    sampleOldRow.last_used < 2 * usPerDay - 1 * usPerDay ∧
    (fsExists ([] : Fs) ("storage/audio" ++ "/" ++ sampleOldRow.file_name) = false ∨
      (fun _ : String => false) ("storage/audio" ++ "/" ++ sampleOldRow.file_name) = true) ∧
    (∃ (n m : Nat) (st' : TTSState),
      cleanup_cache "storage/audio" (fun _ => false) true (2 * usPerDay) 1
          ⟨[sampleOldRow], []⟩ = (.ok (n, m), st') ∧
        sampleOldRow ∉ st'.db ∧ 1 ≤ n ∧ m < n) :=
  ⟨List.mem_singleton.mpr rfl, by decide, Or.inl rfl,
   C6_eviction_best_effort "storage/audio" (fun _ => false) (2 * usPerDay) 1
     ⟨[sampleOldRow], []⟩ sampleOldRow (List.mem_singleton.mpr rfl) (by decide) (Or.inl rfl)⟩

/-- Witness for C7: an upload declared `text/html` is rejected by both
handlers. -/
theorem C7_upload_rejected_witness :
    ((["audio/mpeg"] : List String).contains sampleUpload.content_type = false ∨
      (10 : Nat) < sampleUpload.content.length) ∧
    (botAllowedAudioTypes.contains sampleUpload.content_type = false ∨
      botMaxFileSize < sampleUpload.content.length) ∧
    ((∃ code detail, upload_custom_audio ["audio/mpeg"] 10 "storage/audio" true 1 0
        sampleUpload "t" none none none ⟨[], []⟩ =
        (.error (code, detail), (⟨[], []⟩ : CustomAudioState)) ∧ 400 ≤ code ∧ code < 500) ∧
     (∃ code detail, upload_bot_audio "u" sampleUpload "t" "x" 5 true "admin" ⟨[], []⟩ =
        (.error (code, detail), (⟨[], []⟩ : BotVoiceState)) ∧ 400 ≤ code ∧ code < 500)) :=
  ⟨Or.inl (by decide), Or.inl (by decide),
   C7_upload_rejected ["audio/mpeg"] 10 "storage/audio" true 1 0 sampleUpload "t" none none
     none ⟨[], []⟩ "u" sampleUpload "t" "x" 5 true "admin" ⟨[], []⟩
     (Or.inl (by decide)) (Or.inl (by decide))⟩

/-- Witness for C8: a missing credential, a failing upstream call, the
single-call dependence, and the resulting 500 with unchanged state. -/
theorem C8_provider_failure_witness :
    (AudioService.generate_tts ⟨none, "default"⟩ sampleGenErr "hi" (some "v") none =
      .error "ElevenLabs API key not configured") ∧
    (AudioService.generate_tts ⟨some "k", "default"⟩ sampleGenErr "hi" (some "v") none =
      .error ("ElevenLabs TTS generation failed: " ++ "boom")) ∧
    (AudioService.generate_tts ⟨some "k", "default"⟩ sampleGenErr "hi" (some "v") none =
      AudioService.generate_tts ⟨some "k", "default"⟩ sampleGenErr "hi" (some "v") none) ∧
    (generate_tts "default" "storage/audio" sampleSvcErr 7 sampleReq ⟨[], []⟩ =
      (.error (500, "Failed to generate TTS: " ++ "boom"), (⟨[], []⟩ : TTSState))) :=
  ⟨(C8_provider_failure none "default" sampleGenErr sampleGenErr sampleGenErr "hi" (some "v")
      none "boom" "boom" "default" "storage/audio" 7 sampleReq ⟨[], []⟩ sampleSvcErr).1 rfl,
   (C8_provider_failure (some "k") "default" sampleGenErr sampleGenErr sampleGenErr "hi"
      (some "v") none "boom" "boom" "default" "storage/audio" 7 sampleReq ⟨[], []⟩
      sampleSvcErr).2.1 rfl rfl,
   (C8_provider_failure (some "k") "default" sampleGenErr sampleGenErr sampleGenErr "hi"
      (some "v") none "boom" "boom" "default" "storage/audio" 7 sampleReq ⟨[], []⟩
      sampleSvcErr).2.2.1 rfl,
   (C8_provider_failure (some "k") "default" sampleGenErr sampleGenErr sampleGenErr "hi"
      (some "v") none "boom" "boom" "default" "storage/audio" 7 sampleReq ⟨[], []⟩
      sampleSvcErr).2.2.2 rfl rfl⟩

/-- Witness for C9: the empty state is reachable and unique-keyed, and a
hit with `use_cache=true` leaves the key multiset unchanged. -/
theorem C9_unique_key_invariant_witness :
    CacheReachable (⟨[], []⟩ : TTSState) ∧
    UniqueHashes (⟨[], []⟩ : TTSState).db ∧
    sampleReq.use_cache = true ∧
    (∃ r ∈ (⟨[sampleRow], []⟩ : TTSState).db, r.text_hash = ttsTextHash sampleReq) ∧
    (generate_tts "default" "storage/audio" sampleSvcOk 7 sampleReq
        ⟨[sampleRow], []⟩).2.db.map AudioCacheRow.text_hash =
      ([sampleRow] : List AudioCacheRow).map AudioCacheRow.text_hash :=
  ⟨.init [], (C9_unique_key_invariant).1 ⟨[], []⟩ (.init []),
   rfl, ⟨sampleRow, List.mem_singleton.mpr rfl, rfl⟩,
   (C9_unique_key_invariant).2 "default" "storage/audio" sampleSvcOk 7 sampleReq
     ⟨[sampleRow], []⟩ rfl ⟨sampleRow, List.mem_singleton.mpr rfl, rfl⟩⟩

/-- Witness for C10: with `use_cache=false` the table stays as it was for
both a succeeding and a failing client. -/
theorem C10_no_cache_frame_witness :
    sampleReqNC.use_cache = false ∧
    sampleSvcOk sampleReqNC.text (orDefault sampleReqNC.voice_id "default")
      sampleReqNC.voice_settings = .ok [1, 2, 3] ∧
    generate_tts "default" "storage/audio" sampleSvcOk 7 sampleReqNC ⟨[sampleRow], []⟩ =
      (.ok ⟨"/storage/audio/" ++ ("tts_" ++ ttsTextHash sampleReqNC ++ ".mp3"),
         ttsTextHash sampleReqNC, false, ([1, 2, 3] : List Nat).length, none,
         orDefault sampleReqNC.voice_id "default"⟩,
       ⟨[sampleRow], fsWrite [] ("storage/audio" ++ "/" ++ ("tts_" ++
          ttsTextHash sampleReqNC ++ ".mp3")) [1, 2, 3]⟩) ∧
    sampleSvcErr sampleReqNC.text (orDefault sampleReqNC.voice_id "default")
      sampleReqNC.voice_settings = .error "boom" ∧
    generate_tts "default" "storage/audio" sampleSvcErr 7 sampleReqNC ⟨[sampleRow], []⟩ =
      (.error (500, "Failed to generate TTS: " ++ "boom"), ⟨[sampleRow], []⟩) :=
  ⟨rfl, rfl,
   (C10_no_cache_frame "default" "storage/audio" sampleSvcOk 7 sampleReqNC [sampleRow] []
      rfl).1 [1, 2, 3] rfl,
   rfl,
   (C10_no_cache_frame "default" "storage/audio" sampleSvcErr 7 sampleReqNC [sampleRow] []
      rfl).2 "boom" rfl⟩
